import Mathlib

/- Verification of the CreditFlow360 synthetic data generation engine
   (customer / loan / transaction / fraud-alert generators).
   Shallow embedding: each Python function of the generation engine is
   translated into a Lean definition over exact rational (or, where the
   source uses `np.exp`, real) arithmetic; every call to the `random`
   module is an explicit draw parameter. -/

namespace CreditFlow

/-! Rounding.  Python's built-in `round` rounds half to even ("banker's
rounding"); `round(x, d)` rounds to `d` decimal digits.  `pyRound` models
`round(x)` and `pyRoundTo d` models `round(x, d)`. -/

/-- Python `round(x)`: round half to even. -/
def pyRound {α : Type*} [LinearOrderedField α] [FloorRing α] (x : α) : ℤ :=
  if Int.fract x = 1/2 then (if ⌊x⌋ % 2 = 0 then ⌊x⌋ else ⌊x⌋ + 1) else round x

/-- Python `round(x, d)`: round to `d` decimal digits. -/
def pyRoundTo {α : Type*} [LinearOrderedField α] [FloorRing α] (d : ℕ) (x : α) : α :=
  (pyRound (x * 10 ^ d) : α) / 10 ^ d

theorem pyRound_le {α : Type*} [LinearOrderedField α] [FloorRing α] (x : α) :
    (pyRound x : α) ≤ x + 1/2 := by
  unfold pyRound
  split_ifs with h h2
  · have hx : x - (⌊x⌋ : α) = 1/2 := h
    linarith
  · have hx : x - (⌊x⌋ : α) = 1/2 := h
    push_cast
    linarith
  · rw [round_eq]
    exact Int.floor_le (x + 1/2)

theorem le_pyRound {α : Type*} [LinearOrderedField α] [FloorRing α] (x : α) :
    x - 1/2 ≤ (pyRound x : α) := by
  unfold pyRound
  split_ifs with h h2
  · have hx : x - (⌊x⌋ : α) = 1/2 := h
    linarith
  · have hx : x - (⌊x⌋ : α) = 1/2 := h
    push_cast
    linarith
  · rw [round_eq]
    have := Int.lt_floor_add_one (x + 1/2)
    linarith

theorem pyRound_nonneg {α : Type*} [LinearOrderedField α] [FloorRing α] (x : α)
    (h : 0 ≤ x) : 0 ≤ pyRound x := by
  unfold pyRound
  have hf : (0:ℤ) ≤ ⌊x⌋ := Int.floor_nonneg.2 h
  split_ifs with h1 h2
  · exact hf
  · omega
  · rw [round_eq]
    have : (0:α) ≤ x + 1/2 := by linarith
    exact Int.floor_nonneg.2 this

theorem pyRound_le_int {α : Type*} [LinearOrderedField α] [FloorRing α] (x : α)
    (n : ℤ) (h : x ≤ (n : α)) : pyRound x ≤ n := by
  have h1 : (pyRound x : α) ≤ (n : α) + 1/2 := le_trans (pyRound_le x) (by linarith)
  have h2 : (pyRound x : α) < ((n + 1 : ℤ) : α) := by push_cast; linarith
  have h3 : pyRound x < n + 1 := by exact_mod_cast h2
  omega

theorem int_le_pyRound {α : Type*} [LinearOrderedField α] [FloorRing α] (x : α)
    (n : ℤ) (h : (n : α) ≤ x) : n ≤ pyRound x := by
  have h1 : (n : α) - 1/2 ≤ (pyRound x : α) := le_trans (by linarith) (le_pyRound x)
  have h2 : ((n - 1 : ℤ) : α) < (pyRound x : α) := by push_cast; linarith
  have h3 : n - 1 < pyRound x := by exact_mod_cast h2
  omega

theorem abs_pyRoundTo_sub {α : Type*} [LinearOrderedField α] [FloorRing α]
    (d : ℕ) (x : α) : |pyRoundTo d x - x| ≤ 1 / (2 * 10 ^ d) := by
  have hp : (0:α) < 10 ^ d := by positivity
  have h1 := pyRound_le (x * 10 ^ d)
  have h2 := le_pyRound (x * 10 ^ d)
  unfold pyRoundTo
  rw [abs_le]
  have key : (1 : α) / (2 * 10 ^ d) * 10 ^ d = 1/2 := by field_simp; ring
  constructor
  · rw [div_sub' _ _ _ (ne_of_gt hp), le_div_iff₀ hp, neg_mul, key]
    linarith
  · rw [div_sub' _ _ _ (ne_of_gt hp), div_le_iff₀ hp, key]
    linarith

theorem pyRoundTo_nonneg {α : Type*} [LinearOrderedField α] [FloorRing α]
    (d : ℕ) (x : α) (h : 0 ≤ x) : 0 ≤ pyRoundTo d x := by
  have hp : (0:α) < 10 ^ d := by positivity
  have := pyRound_nonneg (x * 10 ^ d) (by positivity)
  unfold pyRoundTo
  positivity

theorem pyRoundTo_le_div {α : Type*} [LinearOrderedField α] [FloorRing α]
    (d : ℕ) (x : α) (n : ℤ) (h : x ≤ (n : α) / 10 ^ d) :
    pyRoundTo d x ≤ (n : α) / 10 ^ d := by
  have hp : (0:α) < 10 ^ d := by positivity
  have hx : x * 10 ^ d ≤ (n : α) := (le_div_iff₀ hp).mp h
  have hr := pyRound_le_int (x * 10 ^ d) n hx
  unfold pyRoundTo
  rw [div_le_div_iff_of_pos_right hp]
  exact_mod_cast hr

theorem div_le_pyRoundTo {α : Type*} [LinearOrderedField α] [FloorRing α]
    (d : ℕ) (x : α) (n : ℤ) (h : (n : α) / 10 ^ d ≤ x) :
    (n : α) / 10 ^ d ≤ pyRoundTo d x := by
  have hp : (0:α) < 10 ^ d := by positivity
  have hx : (n : α) ≤ x * 10 ^ d := (div_le_iff₀ hp).mp h
  have hr := int_le_pyRound (x * 10 ^ d) n hx
  unfold pyRoundTo
  rw [div_le_div_iff_of_pos_right hp]
  exact_mod_cast hr

/-! FraudGenerator risk scoring (fraud_scenario_generator.py, lines 101-157).
`calculate_risk_score(fraud_type, loan_amount, credit_score, days_past_due)`
adds tiered bonuses to a per-fraud-type base weight, adds
`random.randint(-10, 10)` noise (the explicit `noise` parameter below),
clamps to [1, 100], and derives the risk level from the clamped score. -/

inductive RiskLevel where
  | critical
  | high
  | medium
  | low
deriving DecidableEq, Repr

/-- Base score by fraud type (dict `fraud_type_weights`, default 50). -/
def fraudTypeWeight (fraud_type : String) : ℤ :=
  if fraud_type = "Income Mismatch" then 60
  else if fraud_type = "Multiple Applications Same Collateral" then 75
  else if fraud_type = "Synthetic Identity" then 85
  else if fraud_type = "Shell Company" then 80
  else if fraud_type = "Early Payment Default" then 55
  else if fraud_type = "Identity Theft" then 90
  else if fraud_type = "Stolen Documents" then 85
  else if fraud_type = "Fake Employment" then 70
  else 50

/-- Loan-amount adjustment (lines 121-126). -/
def amountAdj (loan_amount : ℚ) : ℤ :=
  if loan_amount > 10000000 then 15
  else if loan_amount > 5000000 then 10
  else if loan_amount > 1000000 then 5
  else 0

/-- Credit-score adjustment (lines 129-134). -/
def creditAdj (credit_score : ℤ) : ℤ :=
  if credit_score < 550 then 15
  else if credit_score < 650 then 10
  else if credit_score < 750 then 5
  else 0

/-- DPD adjustment (lines 137-142). -/
def dpdAdj (days_past_due : ℤ) : ℤ :=
  if days_past_due > 90 then 20
  else if days_past_due > 60 then 15
  else if days_past_due > 30 then 10
  else 0

/-- `FraudGenerator.calculate_risk_score`; returns `(risk_score, risk_level)`.
`noise` is the `random.randint(-10, 10)` draw. -/
def calculate_risk_score (fraud_type : String) (loan_amount : ℚ)
    (credit_score : ℤ) (days_past_due : ℤ) (noise : ℤ) : ℤ × RiskLevel :=
  let base_score := fraudTypeWeight fraud_type + amountAdj loan_amount
    + creditAdj credit_score + dpdAdj days_past_due
  let risk_score := min 100 (max 1 (base_score + noise))
  let risk_level :=
    if risk_score ≥ 80 then RiskLevel.critical
    else if risk_score ≥ 60 then RiskLevel.high
    else if risk_score ≥ 40 then RiskLevel.medium
    else RiskLevel.low
  (risk_score, risk_level)

/-- The spec's fixed band table: Critical iff score in [80,100], High iff
in [60,79], Medium iff in [40,59], Low iff in [1,39] (spec section 3 and
section 8).  Stated from the spec's words, to compare with the code. -/
def specRiskBand (score : ℤ) : Option RiskLevel :=
  if 80 ≤ score ∧ score ≤ 100 then some RiskLevel.critical
  else if 60 ≤ score ∧ score ≤ 79 then some RiskLevel.high
  else if 40 ≤ score ∧ score ≤ 59 then some RiskLevel.medium
  else if 1 ≤ score ∧ score ≤ 39 then some RiskLevel.low
  else none

/-- Stored `(risk_score, risk_level)` of a shared-collateral alert
(fraud_scenario_generator.py lines 255-271): the scenario calls
`calculate_risk_score` with the fixed default credit score 650, then stores
`risk_score + 10` together with `'High' if risk_score > 70 else risk_level`
(both computed from the un-bumped score). -/
def collateralAlertScoreLevel (loan_amount : ℚ) (days_past_due : ℤ)
    (noise : ℤ) : ℤ × RiskLevel :=
  let p := calculate_risk_score ("Multiple Applications Same Collateral")
    loan_amount 650 days_past_due noise
  (p.1 + 10, if p.1 > 70 then RiskLevel.high else p.2)

/-- Stored `(risk_score, risk_level)` of a synthetic-identity alert
(fraud_scenario_generator.py lines 357-358): `risk_score` is a fresh
`random.randint(75, 95)` draw and `risk_level` is the constant `'High'`. -/
def syntheticAlertScoreLevel (draw : ℤ) : ℤ × RiskLevel :=
  (draw, RiskLevel.high)

theorem band_of_clamped (m : ℤ) :
    specRiskBand (min 100 (max 1 m)) =
      some (if min 100 (max 1 m) ≥ 80 then RiskLevel.critical
        else if min 100 (max 1 m) ≥ 60 then RiskLevel.high
        else if min 100 (max 1 m) ≥ 40 then RiskLevel.medium
        else RiskLevel.low) := by
  have h1 : 1 ≤ min 100 (max 1 m) := by omega
  have h2 : min 100 (max 1 m) ≤ 100 := by omega
  unfold specRiskBand
  split_ifs <;> first | rfl | omega

/-- C1 counterexample: a concrete shared-collateral alert whose stored
risk score 85 lies in the Critical band while its stored risk level is
High (base score 75 = weight 75 + credit bonus 5 at the default 650 - 5
noise; stored score 75 + 10 = 85; stored level computed from 75). -/
theorem collateral_alert_level_band_mismatch :
    collateralAlertScoreLevel 500000 0 (-5) = (85, RiskLevel.high) ∧
      specRiskBand 85 = some RiskLevel.critical ∧
      specRiskBand (collateralAlertScoreLevel 500000 0 (-5)).1 ≠
        some (collateralAlertScoreLevel 500000 0 (-5)).2 := by
  refine ⟨by decide, by decide, by decide⟩

/-- C1 (amended): the pair returned by `calculate_risk_score` itself always
satisfies the fixed-band invariant, hence so do income-mismatch and
early-default alerts, which store that pair unmodified; shared-collateral
and synthetic-identity alerts post-process the pair and can break it. -/
theorem calculate_risk_score_level_matches_band (fraud_type : String)
    (loan_amount : ℚ) (credit_score days_past_due noise : ℤ) :
    specRiskBand (calculate_risk_score fraud_type loan_amount credit_score
        days_past_due noise).1 =
      some (calculate_risk_score fraud_type loan_amount credit_score
        days_past_due noise).2 :=
  band_of_clamped _

/-! TransactionGenerator.generate_transaction_id
(transaction_generator.py, lines 54-55):
`'TXN' + datetime.now().strftime('%y%m%d') + uuid.uuid4().hex[:8].upper()`.
`uuid.uuid4()` draws from the operating system's entropy pool and
`datetime.now()` reads the wall clock; neither is touched by
`random.seed(seed)` / `np.random.seed(seed)` in the generator
constructors, so both are modelled as explicit inputs distinct from
the seed. -/

/-- `generate_transaction_id`, with the clock reading and the uuid4 hex
digits as explicit inputs. -/
def generate_transaction_id (nowYYMMDD : List Char) (uuidHex : List Char) : String :=
  "TXN" ++ String.mk nowYYMMDD ++ String.mk ((uuidHex.take 8).map Char.toUpper)

/-- The stream of transaction ids a generation run produces for its first
`k` transactions: one `generate_transaction_id` call per transaction.
`seed` is the constructor seed of the run; `entropy j` is the uuid4 hex
the OS hands the `j`-th call.  The id never reads the seed. -/
def txnIdStream (seed : ℕ) (nowYYMMDD : List Char) (entropy : ℕ → List Char)
    (k : ℕ) : List String :=
  (List.range k).map (fun j => generate_transaction_id nowYYMMDD (entropy j))

/-- C2 counterexample: two runs with the same seed (42) and the same
configuration (one transaction, same clock day) but different OS entropy
produce different Transaction datasets: the transaction ids differ. -/
theorem txn_ids_differ_for_same_seed :
    txnIdStream 42 ['2','5','1','0','1','2']
        (fun _ => ['a','a','a','a','a','a','a','a']) 1 ≠
      txnIdStream 42 ['2','5','1','0','1','2']
        (fun _ => ['b','b','b','b','b','b','b','b']) 1 := by
  decide

/-- C2 (amended): the identifier stream is a function of the clock and of
the uuid4 entropy alone - it is independent of the seed, and two runs
agree on it exactly when they agree on the clock and on the entropy
handed to each uuid4 call. -/
theorem txnIdStream_seed_independent_entropy_determined (seed₁ seed₂ : ℕ)
    (nowYYMMDD : List Char) (entropy₁ entropy₂ : ℕ → List Char) (k : ℕ)
    (h : ∀ j, j < k → entropy₁ j = entropy₂ j) :
    txnIdStream seed₁ nowYYMMDD entropy₁ k =
      txnIdStream seed₂ nowYYMMDD entropy₂ k := by
  unfold txnIdStream
  apply List.map_congr_left
  intro j hj
  rw [h j (List.mem_range.mp hj)]

/-- Witness for the C2 amended theorem at seeds 1 and 2, a fixed clock and
a fixed entropy stream. -/
theorem txnIdStream_seed_independent_witness :
    txnIdStream 1 ['2','5','1','0','1','2']
        (fun _ => ['0','1','2','3','4','5','6','7']) 2 =
      txnIdStream 2 ['2','5','1','0','1','2']
        (fun _ => ['0','1','2','3','4','5','6','7']) 2 :=
  txnIdStream_seed_independent_entropy_determined 1 2 _ _ _ 2
    (fun _ _ => rfl)

/-! TransactionGenerator.calculate_emi_components
(transaction_generator.py, lines 57-81).  Splits an EMI into principal /
interest / penalty / GST; each component is rounded with `round(_, 2)`.
The penalty (2% of the EMI amount per 30 days past due) and its 18% GST
are charged on top of the EMI amount: the principal is
`amount - interest`, so principal + interest ≈ amount and the four
components sum to amount + penalty + GST, not to amount. -/

structure EmiComponents where
  principal : ℚ
  interest : ℚ
  penalty : ℚ
  gst : ℚ
deriving DecidableEq, Repr

/-- `calculate_emi_components(amount, interest_rate, outstanding,
days_past_due)`. -/
def calculate_emi_components (amount interest_rate outstanding : ℚ)
    (days_past_due : ℤ) : EmiComponents :=
  let monthly_rate := interest_rate / 12 / 100
  let interest_component := if monthly_rate > 0 then outstanding * monthly_rate else 0
  let principal_component :=
    if monthly_rate > 0 then amount - outstanding * monthly_rate else amount
  let penalty_component :=
    if days_past_due > 0 then amount * (2/100) * ((days_past_due : ℚ) / 30) else 0
  let gst_component := penalty_component * (18/100)
  ⟨pyRoundTo 2 principal_component, pyRoundTo 2 interest_component,
    pyRoundTo 2 penalty_component, pyRoundTo 2 gst_component⟩

/-- C3 counterexample: the final EMI of a loan 90 days past due, with EMI
amount 10000, rate 12% and outstanding 100000: the components are
principal 9000, interest 1000, penalty 600, GST 108, so the component sum
10708 exceeds the amount 10000 by 708 - far beyond the 2-decimal
rounding of each component. -/
theorem emi_components_sum_exceeds_amount :
    calculate_emi_components 10000 12 100000 90 = ⟨9000, 1000, 600, 108⟩ ∧
      (calculate_emi_components 10000 12 100000 90).principal
        + (calculate_emi_components 10000 12 100000 90).interest
        + (calculate_emi_components 10000 12 100000 90).penalty
        + (calculate_emi_components 10000 12 100000 90).gst
        - 10000 = 708 := by
  have h : calculate_emi_components 10000 12 100000 90 = ⟨9000, 1000, 600, 108⟩ := by
    unfold calculate_emi_components pyRoundTo pyRound
    norm_num [Int.fract, round_eq]
  refine ⟨h, by rw [h]; norm_num⟩

/-- C3 (amended): principal + interest equals the EMI amount up to the
intentional 2-decimal rounding (within 1/100), while penalty and GST are
charged on top: the four components sum to amount + penalty + GST up to
rounding (within 1/25), so the sum equals the amount only when the raw
penalty is zero. -/
theorem emi_components_decomposition (amount interest_rate outstanding : ℚ)
    (days_past_due : ℤ) :
    |(calculate_emi_components amount interest_rate outstanding days_past_due).principal
        + (calculate_emi_components amount interest_rate outstanding days_past_due).interest
        - amount| ≤ 1/100 ∧
      |(calculate_emi_components amount interest_rate outstanding days_past_due).principal
        + (calculate_emi_components amount interest_rate outstanding days_past_due).interest
        + (calculate_emi_components amount interest_rate outstanding days_past_due).penalty
        + (calculate_emi_components amount interest_rate outstanding days_past_due).gst
        - (amount
          + (if days_past_due > 0 then amount * (2/100) * ((days_past_due : ℚ) / 30) else 0)
          + (if days_past_due > 0 then amount * (2/100) * ((days_past_due : ℚ) / 30) else 0)
            * (18/100))| ≤ 1/25 := by
  unfold calculate_emi_components
  have e1 := abs_pyRoundTo_sub 2
    (if interest_rate / 12 / 100 > 0 then amount - outstanding * (interest_rate / 12 / 100)
      else amount)
  have e2 := abs_pyRoundTo_sub 2
    (if interest_rate / 12 / 100 > 0 then outstanding * (interest_rate / 12 / 100) else 0)
  have e3 := abs_pyRoundTo_sub 2
    (if days_past_due > 0 then amount * (2/100) * ((days_past_due : ℚ) / 30) else 0)
  have e4 := abs_pyRoundTo_sub 2
    ((if days_past_due > 0 then amount * (2/100) * ((days_past_due : ℚ) / 30) else 0)
      * (18/100))
  rw [abs_le] at e1 e2 e3 e4
  norm_num at e1 e2 e3 e4 ⊢
  constructor
  · rw [abs_le]
    split_ifs at * <;> constructor <;> linarith
  · rw [abs_le]
    split_ifs at * <;> constructor <;> linarith

/-! TransactionGenerator.generate_transactions_for_loan, EMI schedule
(transaction_generator.py, lines 118-125).  The loop runs
`month = 1 .. total_emis` with `emi_date = first_emi_date +
timedelta(days=30 * (month - 1))`, skipping (`continue`) any date past
`end_date = datetime.now()`.  Dates are modelled as integer day numbers
and the loop index is re-based to `m = month - 1`. -/

/-- The sequence of EMI transaction dates emitted for one loan, in
emission order. -/
def emiDates (first_emi_date end_date : ℤ) (total_emis : ℕ) : List ℤ :=
  (List.range total_emis).filterMap (fun m : ℕ =>
    if first_emi_date + 30 * (m : ℤ) > end_date then none
    else some (first_emi_date + 30 * (m : ℤ)))

theorem emiDates_closed_form (f e : ℤ) (t : ℕ) :
    ∃ m, m ≤ t ∧
      emiDates f e t = (List.range m).map (fun k : ℕ => f + 30 * (k : ℤ)) ∧
      (m = t ∨ e < f + 30 * (m : ℤ)) := by
  induction t with
  | zero => exact ⟨0, le_refl 0, rfl, Or.inl rfl⟩
  | succ t ih =>
    obtain ⟨m, hm, heq, hlast⟩ := ih
    have hsplit : emiDates f e (t + 1) =
        emiDates f e t ++ (if f + 30 * (t : ℤ) > e then [] else [f + 30 * (t : ℤ)]) := by
      unfold emiDates
      rw [List.range_succ, List.filterMap_append]
      congr 1
      split_ifs <;> simp_all
    by_cases hkeep : f + 30 * (t : ℤ) > e
    · refine ⟨m, Nat.le_succ_of_le hm, ?_, ?_⟩
      · rw [hsplit, if_pos hkeep, List.append_nil, heq]
      · rcases hlast with h | h
        · exact Or.inr (h ▸ hkeep)
        · exact Or.inr h
    · push_neg at hkeep
      have hmt : m = t := by
        rcases hlast with h | h
        · exact h
        · exfalso
          have : f + 30 * (m : ℤ) ≤ f + 30 * (t : ℤ) := by
            have : (m : ℤ) ≤ (t : ℤ) := by exact_mod_cast hm
            linarith
          linarith
      refine ⟨t + 1, le_refl _, ?_, Or.inl rfl⟩
      rw [hsplit, if_neg (not_lt.mpr hkeep), heq, hmt, List.range_succ, List.map_append]
      simp

/-- C8: every EMI transaction date sits on the 30-day grid anchored at
`first_emi_date` - the i-th emitted EMI is dated exactly
`first_emi_date + 30 * i` (so the first one, when any is emitted, is dated
`first_emi_date`) - and the emitted dates are strictly increasing in
emission order. -/
theorem emiDates_grid_and_strict_mono (f e : ℤ) (t : ℕ) (i j : ℕ) (xi xj : ℤ)
    (hi : (emiDates f e t)[i]? = some xi) (hj : (emiDates f e t)[j]? = some xj) :
    xi = f + 30 * (i : ℤ) ∧ (i < j → xi < xj) := by
  obtain ⟨m, _, heq, _⟩ := emiDates_closed_form f e t
  rw [heq, List.getElem?_map] at hi hj
  have him : i < m := by
    by_contra hc
    rw [List.getElem?_eq_none (by simpa using Nat.le_of_not_lt hc)] at hi
    simp at hi
  have hjm : j < m := by
    by_contra hc
    rw [List.getElem?_eq_none (by simpa using Nat.le_of_not_lt hc)] at hj
    simp at hj
  rw [List.getElem?_range him] at hi
  rw [List.getElem?_range hjm] at hj
  simp only [Option.map_some'] at hi hj
  have hxi : xi = f + 30 * (i : ℤ) := (Option.some_inj.mp hi).symm
  have hxj : xj = f + 30 * (j : ℤ) := (Option.some_inj.mp hj).symm
  refine ⟨hxi, fun hij => ?_⟩
  rw [hxi, hxj]
  have : (i : ℤ) < (j : ℤ) := by exact_mod_cast hij
  linarith

/-- Witness for C8 on a concrete schedule: first EMI day 0, now = day 100,
5 scheduled months, so the emitted dates are [0, 30, 60, 90]; positions 1
and 2 carry dates 30 = 0 + 30 * 1 and 60, and 30 < 60. -/
theorem emiDates_grid_witness :
    (30 : ℤ) = 0 + 30 * (1 : ℕ) ∧ ((1 : ℕ) < 2 → (30 : ℤ) < 60) :=
  emiDates_grid_and_strict_mono 0 100 5 1 2 30 60 (by decide) (by decide)

/-! LoanGenerator helper functions (loan_generator.py).  `uniformDraw u lo
hi` models `random.uniform(lo, hi)` with the unit draw `u` in [0,1] made
explicit. -/

/-- `random.uniform(lo, hi)` at unit draw `u`. -/
def uniformDraw (u lo hi : ℚ) : ℚ := lo + u * (hi - lo)

theorem uniformDraw_mem (u lo hi : ℚ) (h0 : 0 ≤ u) (h1 : u ≤ 1)
    (hlh : lo ≤ hi) : lo ≤ uniformDraw u lo hi ∧ uniformDraw u lo hi ≤ hi := by
  unfold uniformDraw
  constructor
  · nlinarith [mul_nonneg h0 (sub_nonneg.2 hlh)]
  · nlinarith [mul_nonneg (sub_nonneg.2 h1) (sub_nonneg.2 hlh)]

/-- Does `pat` occur at the start of `s`?  (Helper for Python's `in` on
strings.) -/
def charListStartsWith : List Char → List Char → Bool
  | [], _ => true
  | _ :: _, [] => false
  | p :: ps, c :: cs => p == c && charListStartsWith ps cs

/-- Does `pat` occur contiguously anywhere in `s`?  (Helper for Python's
`in` on strings.) -/
def charListHasSub (pat : List Char) : List Char → Bool
  | [] => pat.isEmpty
  | c :: cs => charListStartsWith pat (c :: cs) || charListHasSub pat cs

/-- Python's `pat in s` substring test. -/
def strHas (s pat : String) : Bool := charListHasSub pat.toList s.toList

/-- Python truthiness of an optional float (`None` and `0.0` are falsy),
as used by `if collateral_value and loan_amount:`. -/
def truthyQ : Option ℚ → Bool
  | none => false
  | some x => x != 0

/-- `LoanGenerator.get_dpd_bucket` (lines 174-184). -/
def get_dpd_bucket (days : ℕ) : String :=
  if days = 0 then "0"
  else if days ≤ 30 then "1-30"
  else if days ≤ 60 then "31-60"
  else if days ≤ 90 then "61-90"
  else "90+"

/-- `LoanGenerator.loan_status_mapping` (lines 99-105), with the
`if dpd_bucket in mapping else 'Active'` fallback of line 285. -/
def loan_status_mapping (bucket : ℕ) : String :=
  match bucket with
  | 0 => "Active"
  | 1 => "Active"
  | 2 => "Overdue"
  | 3 => "Overdue"
  | 4 => "NPA"
  | _ => "Active"

/-- `LoanGenerator.calculate_emi` (lines 107-112). -/
def calculate_emi (amount rate : ℚ) (tenure : ℕ) : ℚ :=
  let monthly_rate := rate / 12 / 100
  if monthly_rate = 0 then amount / (tenure : ℚ)
  else pyRoundTo 2 (amount * monthly_rate * (1 + monthly_rate) ^ tenure
    / ((1 + monthly_rate) ^ tenure - 1))

/-- `LoanGenerator.calculate_pd` (lines 186-196): logistic in the credit
score centered at 650, plus `min(0.3, 0.002 * dpd)` when `dpd > 0`, capped
at 0.99 and rounded to 4 decimals. -/
noncomputable def calculate_pd (credit_score : ℤ) (dpd_days : ℕ) : ℝ :=
  let base_pd : ℝ := 1 / (1 + Real.exp (((credit_score : ℝ) - 650) / 50))
  let dpd_factor : ℝ :=
    if 0 < dpd_days then min (3/10) ((dpd_days : ℝ) * (2/1000)) else 0
  pyRoundTo 4 (min (99/100) (base_pd + dpd_factor))

/-- `LoanGenerator.calculate_lgd` (lines 198-214): LTV bands when both
collateral value and loan amount are truthy, otherwise a product-type
fallback range; `u` is the `random.uniform` unit draw. -/
def calculate_lgd (product_type : String)
    (collateral_value loan_amount : Option ℚ) (u : ℚ) : ℚ :=
  pyRoundTo 4 (
    if truthyQ collateral_value && truthyQ loan_amount then
      let ltv := loan_amount.getD 0 / collateral_value.getD 0
      if ltv < 1/2 then uniformDraw u (15/100) (30/100)
      else if ltv < 7/10 then uniformDraw u (30/100) (50/100)
      else uniformDraw u (50/100) (70/100)
    else if strHas product_type ("Home") then uniformDraw u (20/100) (40/100)
    else if strHas product_type ("Auto") then uniformDraw u (30/100) (50/100)
    else uniformDraw u (60/100) (80/100))

/-- `LoanGenerator.calculate_eligibility`, income-multiple tier
(lines 119-123): 3.0 baseline, 4.0 above credit score 650, 5.0 above 750. -/
def max_income_multiple (credit_score : ℤ) : ℚ :=
  if credit_score > 750 then 5
  else if credit_score > 650 then 4
  else 3

/-- `LoanGenerator.calculate_eligibility`, maximum amount (lines 125-127):
`min(product max amount, income * multiple)`. -/
def eligibility_max_amount (product_max_amount annual_income : ℚ)
    (credit_score : ℤ) : ℚ :=
  min product_max_amount (annual_income * max_income_multiple credit_score)

/-- Loan-amount sampling in `LoanGenerator.generate_loans`
(lines 270-274): uniform between `min(product min, eligibility max)` and
`min(product max, eligibility max)`, rounded to the nearest 1,000. -/
def sample_loan_amount (product_min_amount product_max_amount elig_max u : ℚ) : ℚ :=
  (pyRound (uniformDraw u (min product_min_amount elig_max)
    (min product_max_amount elig_max) / 1000) : ℚ) * 1000

/-- C6: `calculate_pd` is exactly the rounded, capped logistic-plus-DPD
formula, and its value always lies in [0, 0.99] - for every integer
credit score and every number of days past due. -/
theorem calculate_pd_formula_and_range (credit_score : ℤ) (dpd_days : ℕ) :
    calculate_pd credit_score dpd_days =
      pyRoundTo 4 (min (99/100)
        (1 / (1 + Real.exp (((credit_score : ℝ) - 650) / 50)) +
          (if 0 < dpd_days then min (3/10) ((dpd_days : ℝ) * (2/1000)) else 0))) ∧
      0 ≤ calculate_pd credit_score dpd_days ∧
      calculate_pd credit_score dpd_days ≤ 99/100 := by
  have heq : calculate_pd credit_score dpd_days =
      pyRoundTo 4 (min (99/100)
        (1 / (1 + Real.exp (((credit_score : ℝ) - 650) / 50)) +
          (if 0 < dpd_days then min (3/10) ((dpd_days : ℝ) * (2/1000)) else 0))) := rfl
  refine ⟨heq, ?_, ?_⟩
  · rw [heq]
    apply pyRoundTo_nonneg
    have hexp := Real.exp_pos (((credit_score : ℝ) - 650) / 50)
    have hbase : (0:ℝ) < 1 / (1 + Real.exp (((credit_score : ℝ) - 650) / 50)) := by
      positivity
    have hfac : (0:ℝ) ≤
        (if 0 < dpd_days then min (3/10) ((dpd_days : ℝ) * (2/1000)) else 0) := by
      split_ifs
      · exact le_min (by norm_num) (by positivity)
      · exact le_refl 0
    exact le_min (by norm_num) (by linarith)
  · rw [heq]
    set x := min ((99:ℝ)/100)
      (1 / (1 + Real.exp (((credit_score : ℝ) - 650) / 50)) +
        (if 0 < dpd_days then min (3/10) ((dpd_days : ℝ) * (2/1000)) else 0)) with hxdef
    have hc : ((9900 : ℤ) : ℝ) / 10 ^ 4 = 99/100 := by norm_num
    have h := pyRoundTo_le_div (α := ℝ) 4 x 9900
      (by rw [hc, hxdef]; exact min_le_left _ _)
    rw [hc] at h
    exact h

theorem lgd_round_bound (x : ℚ) (hlo : 15/100 ≤ x) (hhi : x ≤ 80/100) :
    15/100 ≤ pyRoundTo 4 x ∧ pyRoundTo 4 x ≤ 80/100 := by
  have hc1 : ((1500 : ℤ) : ℚ) / 10 ^ 4 = 15/100 := by norm_num
  have hc2 : ((8000 : ℤ) : ℚ) / 10 ^ 4 = 80/100 := by norm_num
  have hl := div_le_pyRoundTo (α := ℚ) 4 x 1500 (by rw [hc1]; linarith)
  have hh := pyRoundTo_le_div (α := ℚ) 4 x 8000 (by rw [hc2]; linarith)
  rw [hc1] at hl
  rw [hc2] at hh
  exact ⟨hl, hh⟩

theorem lgd_uniform_bound (u lo hi : ℚ) (h0 : 0 ≤ u) (h1 : u ≤ 1)
    (hl : 15/100 ≤ lo) (hlh : lo ≤ hi) (hh : hi ≤ 80/100) :
    15/100 ≤ pyRoundTo 4 (uniformDraw u lo hi) ∧
      pyRoundTo 4 (uniformDraw u lo hi) ≤ 80/100 := by
  have hm := uniformDraw_mem u lo hi h0 h1 hlh
  exact lgd_round_bound _ (by linarith [hm.1]) (by linarith [hm.2])

/-- C10: `calculate_lgd` is total - every combination of product type and
optional collateral value / loan amount (including `None` and zero values)
falls into one of the six sampling branches - and for every unit draw its
result lies in [0.15, 0.80], strictly inside the spec's [0, 1]. -/
theorem calculate_lgd_total_and_range (product_type : String)
    (collateral_value loan_amount : Option ℚ) (u : ℚ)
    (h0 : 0 ≤ u) (h1 : u ≤ 1) :
    15/100 ≤ calculate_lgd product_type collateral_value loan_amount u ∧
      calculate_lgd product_type collateral_value loan_amount u ≤ 80/100 := by
  simp only [calculate_lgd]
  split_ifs <;>
    exact lgd_uniform_bound u _ _ h0 h1 (by norm_num) (by norm_num) (by norm_num)

/-- Witness for C10: a Home Loan with no collateral value and no loan
amount at unit draw 1/2 receives an LGD inside [0.15, 0.80]. -/
theorem calculate_lgd_range_witness :
    15/100 ≤ calculate_lgd ("Home Loan") none none (1/2) ∧
      calculate_lgd ("Home Loan") none none (1/2) ≤ 80/100 :=
  calculate_lgd_total_and_range ("Home Loan") none none (1/2)
    (by norm_num) (by norm_num)

/-- C9: for a customer with credit score at most 650 the income multiple
is the 3.0 baseline, the eligibility cap bounds the uniform sampling range
from above by 3 x income, and rounding to the nearest 1,000 can add at
most 500 - so every sampled loan amount is at most 3 x income + 500. -/
theorem loan_amount_le_triple_income_plus_500
    (product_min_amount product_max_amount annual_income : ℚ)
    (credit_score : ℤ) (u : ℚ) (hcredit : credit_score ≤ 650)
    (h0 : 0 ≤ u) (h1 : u ≤ 1) (hp : product_min_amount ≤ product_max_amount) :
    sample_loan_amount product_min_amount product_max_amount
        (eligibility_max_amount product_max_amount annual_income credit_score) u
      ≤ 3 * annual_income + 500 := by
  have hm : max_income_multiple credit_score = 3 := by
    unfold max_income_multiple
    rw [if_neg (by omega), if_neg (by omega)]
  set elig := eligibility_max_amount product_max_amount annual_income credit_score
    with helig_def
  have helig : elig ≤ 3 * annual_income := by
    rw [helig_def]
    unfold eligibility_max_amount
    rw [hm]
    calc min product_max_amount (annual_income * 3) ≤ annual_income * 3 :=
        min_le_right _ _
    _ = 3 * annual_income := by ring
  have hlo : min product_min_amount elig ≤ min product_max_amount elig :=
    min_le_min hp (le_refl elig)
  have hdraw : uniformDraw u (min product_min_amount elig)
      (min product_max_amount elig) ≤ min product_max_amount elig :=
    (uniformDraw_mem u _ _ h0 h1 hlo).2
  have hhi : min product_max_amount elig ≤ elig := min_le_right _ _
  have hround := pyRound_le (uniformDraw u (min product_min_amount elig)
    (min product_max_amount elig) / 1000)
  unfold sample_loan_amount
  linarith

/-- Witness for C9: credit score 600, income 100,000, product band
[50,000, 1,500,000], unit draw 1/2: the sampled amount is at most
300,500. -/
theorem loan_amount_le_triple_income_witness :
    sample_loan_amount 50000 1500000
        (eligibility_max_amount 1500000 100000 600) (1/2)
      ≤ 3 * 100000 + 500 :=
  loan_amount_le_triple_income_plus_500 50000 1500000 100000 600 (1/2)
    (by norm_num) (by norm_num) (by norm_num) (by norm_num)

/-! Loan records (loan_generator.py, `generate_loans`, lines 254-420).
One iteration of the loop builds either the approved-loan dict
(lines 280-373) or the rejected-loan dict (lines 374-418), depending on
the `random.random() < 0.9` approval draw.  Dates are integer day numbers;
every random draw of the iteration is an explicit parameter.  The two
risk scores `pd_score` / `lgd_score` are the values computed at lines
313-318 (settled separately by `calculate_pd` / `calculate_lgd`); they are
threaded in as parameters here exactly as the Python locals are. -/

structure CollateralInfo where
  collateral_id : String
  collateral_value : ℚ
  loan_to_value_ratio : ℚ
deriving Repr

structure LoanRec where
  loan_id : String
  customer_id : String
  product_id : String
  branch_id : String
  application_date : ℤ
  disbursement_date : Option ℤ
  first_emi_date : Option ℤ
  loan_amount : ℚ
  sanctioned_amount : Option ℚ
  interest_rate : Option ℚ
  tenure_months : Option ℕ
  emi_amount : Option ℚ
  processing_fee : Option ℚ
  gst_on_fee : Option ℚ
  net_disbursed_amount : Option ℚ
  loan_purpose : String
  collateral_id : Option String
  collateral_value : Option ℚ
  loan_to_value_ratio : Option ℚ
  co_applicant_present : Bool
  co_applicant_income : Option ℤ
  bureau_score_at_origination : ℤ
  internal_risk_rating : String
  probability_of_default : Option ℝ
  loss_given_default : Option ℝ
  exposure_at_default : Option ℚ
  expected_loss : Option ℝ
  current_balance : ℚ
  overdue_amount : ℚ
  days_past_due : ℕ
  dpd_bucket : String
  npa_flag : Bool
  npa_date : Option ℤ
  restructuring_flag : Bool
  written_off_flag : Bool
  loan_status : String
  collection_tier : Option ℕ
  assigned_collection_agent : Option String
  fraud_flag : Bool
  fraud_type : Option String
  fraud_detection_date : Option ℤ

/-- Python `str.zfill(w)`. -/
def zfill (w : ℕ) (s : String) : String :=
  String.mk (List.replicate (w - s.length) '0') ++ s

/-- One iteration of `LoanGenerator.generate_loans` from the approval draw
on (lines 278-418).  Parameters after `u_approve`: `disb_offset` is the
`random.randint(5, 15)` disbursement delay; `days_past_due` /
`dpd_bucket_idx` are the `generate_dpd()` result; `end_date` is
`datetime.now()`; `collateral` is the optional `generate_collateral`
result; `pd_score` / `lgd_score` the computed risk metrics;
`co_applicant` / `co_applicant_income_draw` the 20% co-applicant draw and
its income; `restructuring_draw` / `written_off_draw` the respective
`random.random()` draws; `agent_num` the collection-agent number;
`rejected_id_hex` the uuid4 hex of the rejected-loan id. -/
noncomputable def makeLoanRecord (i : ℕ) (customer_id : String)
    (credit_score : ℤ) (credit_tier : String)
    (product_id branch_id : String)
    (application_date : ℤ) (loan_amount suggested_rate : ℚ)
    (suggested_tenure : ℕ) (loan_purpose : String) (u_approve : ℚ)
    (disb_offset : ℤ) (days_past_due : ℕ) (dpd_bucket_idx : ℕ)
    (end_date : ℤ) (collateral : Option CollateralInfo)
    (pd_score lgd_score : ℝ) (co_applicant : Bool)
    (co_applicant_income_draw : ℤ) (restructuring_draw written_off_draw : ℚ)
    (agent_num : ℕ) (rejected_id_hex : String) : LoanRec :=
  if u_approve < 9/10 then
    let disbursement_date := application_date + disb_offset
    let first_emi_date := disbursement_date + 30
    let loan_status := loan_status_mapping dpd_bucket_idx
    let npa_flag := decide (90 < days_past_due)
    let emi_amount := calculate_emi loan_amount suggested_rate suggested_tenure
    let months_passed : ℚ := ((end_date - disbursement_date : ℤ) : ℚ) / 30
    let paid_emis := min months_passed (suggested_tenure : ℚ)
    let current_balance := max 0 (loan_amount - emi_amount * paid_emis * (7/10))
    let overdue_amount :=
      if 0 < days_past_due then emi_amount * ((days_past_due / 30 : ℕ) : ℚ) else 0
    let collection_tier : ℕ :=
      if 90 < days_past_due ∨ (7/10 : ℝ) < pd_score then 3
      else if 30 < days_past_due ∨ (2/5 : ℝ) < pd_score then 2
      else 1
    { loan_id := "LOAN" ++ zfill 10 (toString (i + 1))
      customer_id := customer_id
      product_id := product_id
      branch_id := branch_id
      application_date := application_date
      disbursement_date := some disbursement_date
      first_emi_date := some first_emi_date
      loan_amount := loan_amount
      sanctioned_amount := some loan_amount
      interest_rate := some suggested_rate
      tenure_months := some suggested_tenure
      emi_amount := some emi_amount
      processing_fee := some (pyRoundTo 2 (loan_amount * (1/100)))
      gst_on_fee := some (pyRoundTo 2 (loan_amount * (1/100) * (18/100)))
      net_disbursed_amount :=
        some (loan_amount - pyRoundTo 2 (loan_amount * (1/100) * (118/100)))
      loan_purpose := loan_purpose
      collateral_id := collateral.map (fun c => c.collateral_id)
      collateral_value := collateral.map (fun c => c.collateral_value)
      loan_to_value_ratio := collateral.map (fun c => c.loan_to_value_ratio)
      co_applicant_present := co_applicant
      co_applicant_income :=
        if co_applicant then some co_applicant_income_draw else none
      bureau_score_at_origination := credit_score
      internal_risk_rating := credit_tier
      probability_of_default := some pd_score
      loss_given_default := some lgd_score
      exposure_at_default := some (loan_amount * (9/10))
      expected_loss := some ((loan_amount : ℝ) * pd_score * lgd_score)
      current_balance := pyRoundTo 2 current_balance
      overdue_amount := pyRoundTo 2 overdue_amount
      days_past_due := days_past_due
      dpd_bucket := get_dpd_bucket days_past_due
      npa_flag := npa_flag
      npa_date :=
        if 90 < days_past_due then some (disbursement_date + days_past_due)
        else none
      restructuring_flag :=
        if 60 < days_past_due then decide (restructuring_draw < 1/100) else false
      written_off_flag :=
        if 180 < days_past_due then decide (written_off_draw < 5/1000) else false
      loan_status := loan_status
      collection_tier := some collection_tier
      assigned_collection_agent :=
        if 30 < days_past_due then some ("AGENT" ++ zfill 3 (toString agent_num))
        else none
      fraud_flag := false
      fraud_type := none
      fraud_detection_date := none }
  else
    { loan_id := "LOAN" ++ rejected_id_hex
      customer_id := customer_id
      product_id := product_id
      branch_id := branch_id
      application_date := application_date
      disbursement_date := none
      first_emi_date := none
      loan_amount := loan_amount
      sanctioned_amount := none
      interest_rate := none
      tenure_months := none
      emi_amount := none
      processing_fee := none
      gst_on_fee := none
      net_disbursed_amount := none
      loan_purpose := loan_purpose
      collateral_id := none
      collateral_value := none
      loan_to_value_ratio := none
      co_applicant_present := false
      co_applicant_income := none
      bureau_score_at_origination := credit_score
      internal_risk_rating := credit_tier
      probability_of_default := none
      loss_given_default := none
      exposure_at_default := none
      expected_loss := none
      current_balance := 0
      overdue_amount := 0
      days_past_due := 0
      dpd_bucket := "0"
      npa_flag := false
      npa_date := none
      restructuring_flag := false
      written_off_flag := false
      loan_status := "Rejected"
      collection_tier := none
      assigned_collection_agent := none
      fraud_flag := false
      fraud_type := none
      fraud_detection_date := none }

theorem get_dpd_bucket_bands (d : ℕ) :
    (get_dpd_bucket d = "0" ↔ d = 0) ∧
      (get_dpd_bucket d = "1-30" ↔ 1 ≤ d ∧ d ≤ 30) ∧
      (get_dpd_bucket d = "31-60" ↔ 31 ≤ d ∧ d ≤ 60) ∧
      (get_dpd_bucket d = "61-90" ↔ 61 ≤ d ∧ d ≤ 90) ∧
      (get_dpd_bucket d = "90+" ↔ 90 < d) := by
  unfold get_dpd_bucket
  split_ifs <;> refine ⟨?_, ?_, ?_, ?_, ?_⟩ <;> constructor <;> intro hx <;>
    first
      | rfl
      | (exact absurd hx (by decide))
      | omega

/-- C4: on every approved loan the stored `dpd_bucket` is exactly the band
containing `days_past_due` - `'0'` iff 0, `'1-30'` iff [1,30], `'31-60'`
iff [31,60], `'61-90'` iff [61,90], `'90+'` iff above 90 - and `npa_flag`
holds iff `days_past_due` exceeds 90. -/
theorem approved_loan_dpd_bucket_and_npa (i : ℕ) (customer_id : String)
    (credit_score : ℤ) (credit_tier product_id branch_id : String)
    (application_date : ℤ) (loan_amount suggested_rate : ℚ)
    (suggested_tenure : ℕ) (loan_purpose : String) (u_approve : ℚ)
    (disb_offset : ℤ) (days_past_due : ℕ) (dpd_bucket_idx : ℕ)
    (end_date : ℤ) (collateral : Option CollateralInfo)
    (pd_score lgd_score : ℝ) (co_applicant : Bool)
    (co_applicant_income_draw : ℤ) (restructuring_draw written_off_draw : ℚ)
    (agent_num : ℕ) (rejected_id_hex : String)
    (happrove : u_approve < 9/10) :
    ((makeLoanRecord i customer_id credit_score credit_tier product_id
        branch_id application_date loan_amount suggested_rate
        suggested_tenure loan_purpose u_approve disb_offset days_past_due
        dpd_bucket_idx end_date collateral pd_score lgd_score co_applicant
        co_applicant_income_draw restructuring_draw written_off_draw
        agent_num rejected_id_hex).dpd_bucket = "0" ↔ days_past_due = 0) ∧
      ((makeLoanRecord i customer_id credit_score credit_tier product_id
        branch_id application_date loan_amount suggested_rate
        suggested_tenure loan_purpose u_approve disb_offset days_past_due
        dpd_bucket_idx end_date collateral pd_score lgd_score co_applicant
        co_applicant_income_draw restructuring_draw written_off_draw
        agent_num rejected_id_hex).dpd_bucket = "1-30" ↔
          1 ≤ days_past_due ∧ days_past_due ≤ 30) ∧
      ((makeLoanRecord i customer_id credit_score credit_tier product_id
        branch_id application_date loan_amount suggested_rate
        suggested_tenure loan_purpose u_approve disb_offset days_past_due
        dpd_bucket_idx end_date collateral pd_score lgd_score co_applicant
        co_applicant_income_draw restructuring_draw written_off_draw
        agent_num rejected_id_hex).dpd_bucket = "31-60" ↔
          31 ≤ days_past_due ∧ days_past_due ≤ 60) ∧
      ((makeLoanRecord i customer_id credit_score credit_tier product_id
        branch_id application_date loan_amount suggested_rate
        suggested_tenure loan_purpose u_approve disb_offset days_past_due
        dpd_bucket_idx end_date collateral pd_score lgd_score co_applicant
        co_applicant_income_draw restructuring_draw written_off_draw
        agent_num rejected_id_hex).dpd_bucket = "61-90" ↔
          61 ≤ days_past_due ∧ days_past_due ≤ 90) ∧
      ((makeLoanRecord i customer_id credit_score credit_tier product_id
        branch_id application_date loan_amount suggested_rate
        suggested_tenure loan_purpose u_approve disb_offset days_past_due
        dpd_bucket_idx end_date collateral pd_score lgd_score co_applicant
        co_applicant_income_draw restructuring_draw written_off_draw
        agent_num rejected_id_hex).dpd_bucket = "90+" ↔
          90 < days_past_due) ∧
      ((makeLoanRecord i customer_id credit_score credit_tier product_id
        branch_id application_date loan_amount suggested_rate
        suggested_tenure loan_purpose u_approve disb_offset days_past_due
        dpd_bucket_idx end_date collateral pd_score lgd_score co_applicant
        co_applicant_income_draw restructuring_draw written_off_draw
        agent_num rejected_id_hex).npa_flag = true ↔
          90 < days_past_due) := by
  have hb : (makeLoanRecord i customer_id credit_score credit_tier product_id
      branch_id application_date loan_amount suggested_rate
      suggested_tenure loan_purpose u_approve disb_offset days_past_due
      dpd_bucket_idx end_date collateral pd_score lgd_score co_applicant
      co_applicant_income_draw restructuring_draw written_off_draw
      agent_num rejected_id_hex).dpd_bucket = get_dpd_bucket days_past_due := by
    unfold makeLoanRecord
    rw [if_pos happrove]
  have hn : (makeLoanRecord i customer_id credit_score credit_tier product_id
      branch_id application_date loan_amount suggested_rate
      suggested_tenure loan_purpose u_approve disb_offset days_past_due
      dpd_bucket_idx end_date collateral pd_score lgd_score co_applicant
      co_applicant_income_draw restructuring_draw written_off_draw
      agent_num rejected_id_hex).npa_flag = decide (90 < days_past_due) := by
    unfold makeLoanRecord
    rw [if_pos happrove]
  obtain ⟨b0, b1, b2, b3, b4⟩ := get_dpd_bucket_bands days_past_due
  rw [hb, hn]
  exact ⟨b0, b1, b2, b3, b4, by simp [decide_eq_true_iff]⟩

/-- Witness for C4: a concrete approved loan with `days_past_due = 95` has
`dpd_bucket = "90+"` and `npa_flag = true`. -/
theorem approved_loan_dpd_bucket_witness :
    (makeLoanRecord 0 "CUST00000001" 700 "Near-Prime" "PL001" "BR001" 0
        100000 12 48 "Travel expenses" 0 10 95 4 1000 none 0 0 false 0 1 1
        1 "ABCDEF1234").dpd_bucket = "90+" ∧
      (makeLoanRecord 0 "CUST00000001" 700 "Near-Prime" "PL001" "BR001" 0
        100000 12 48 "Travel expenses" 0 10 95 4 1000 none 0 0 false 0 1 1
        1 "ABCDEF1234").npa_flag = true := by
  have h := approved_loan_dpd_bucket_and_npa 0 "CUST00000001" 700
    "Near-Prime" "PL001" "BR001" 0 100000 12 48 "Travel expenses" 0 10 95 4
    1000 none 0 0 false 0 1 1 1 "ABCDEF1234" (by norm_num)
  exact ⟨(h.2.2.2.2.1).mpr (by norm_num), (h.2.2.2.2.2).mpr (by norm_num)⟩

/-- C5: a rejected application (approval draw at or above 0.9) yields a
record whose disbursement-dependent fields are all null, whose
`current_balance`, `overdue_amount` and `days_past_due` are 0, and whose
`loan_status` is `'Rejected'`. -/
theorem rejected_loan_null_fields (i : ℕ) (customer_id : String)
    (credit_score : ℤ) (credit_tier product_id branch_id : String)
    (application_date : ℤ) (loan_amount suggested_rate : ℚ)
    (suggested_tenure : ℕ) (loan_purpose : String) (u_approve : ℚ)
    (disb_offset : ℤ) (days_past_due : ℕ) (dpd_bucket_idx : ℕ)
    (end_date : ℤ) (collateral : Option CollateralInfo)
    (pd_score lgd_score : ℝ) (co_applicant : Bool)
    (co_applicant_income_draw : ℤ) (restructuring_draw written_off_draw : ℚ)
    (agent_num : ℕ) (rejected_id_hex : String)
    (hreject : 9/10 ≤ u_approve) :
    let l := makeLoanRecord i customer_id credit_score credit_tier
      product_id branch_id application_date loan_amount suggested_rate
      suggested_tenure loan_purpose u_approve disb_offset days_past_due
      dpd_bucket_idx end_date collateral pd_score lgd_score co_applicant
      co_applicant_income_draw restructuring_draw written_off_draw
      agent_num rejected_id_hex
    l.disbursement_date = none ∧ l.first_emi_date = none ∧
      l.sanctioned_amount = none ∧ l.interest_rate = none ∧
      l.tenure_months = none ∧ l.emi_amount = none ∧
      l.processing_fee = none ∧ l.gst_on_fee = none ∧
      l.net_disbursed_amount = none ∧ l.collateral_id = none ∧
      l.collateral_value = none ∧ l.loan_to_value_ratio = none ∧
      l.probability_of_default = none ∧ l.loss_given_default = none ∧
      l.exposure_at_default = none ∧ l.expected_loss = none ∧
      l.collection_tier = none ∧ l.assigned_collection_agent = none ∧
      l.current_balance = 0 ∧ l.overdue_amount = 0 ∧
      l.days_past_due = 0 ∧ l.loan_status = "Rejected" := by
  intro l
  have hl : l = makeLoanRecord i customer_id credit_score credit_tier
      product_id branch_id application_date loan_amount suggested_rate
      suggested_tenure loan_purpose u_approve disb_offset days_past_due
      dpd_bucket_idx end_date collateral pd_score lgd_score co_applicant
      co_applicant_income_draw restructuring_draw written_off_draw
      agent_num rejected_id_hex := rfl
  rw [hl]
  unfold makeLoanRecord
  rw [if_neg (not_lt.mpr hreject)]
  exact ⟨rfl, rfl, rfl, rfl, rfl, rfl, rfl, rfl, rfl, rfl, rfl, rfl, rfl,
    rfl, rfl, rfl, rfl, rfl, rfl, rfl, rfl, rfl⟩

/-- Witness for C5: a concrete application with approval draw 0.95 is
rejected with null disbursement date, null probability of default, and
status `'Rejected'`. -/
theorem rejected_loan_null_fields_witness :
    (makeLoanRecord 0 "CUST00000002" 640 "Sub-Prime" "PL001" "BR002" 0
        200000 13 48 "Medical emergency" (19/20) 10 0 0 1000 none 0 0 false
        0 1 1 1 "FACE12AB34").disbursement_date = none ∧
      (makeLoanRecord 0 "CUST00000002" 640 "Sub-Prime" "PL001" "BR002" 0
        200000 13 48 "Medical emergency" (19/20) 10 0 0 1000 none 0 0 false
        0 1 1 1 "FACE12AB34").probability_of_default = none ∧
      (makeLoanRecord 0 "CUST00000002" 640 "Sub-Prime" "PL001" "BR002" 0
        200000 13 48 "Medical emergency" (19/20) 10 0 0 1000 none 0 0 false
        0 1 1 1 "FACE12AB34").loan_status = "Rejected" := by
  have h := rejected_loan_null_fields 0 "CUST00000002" 640 "Sub-Prime"
    "PL001" "BR002" 0 200000 13 48 "Medical emergency" (19/20) 10 0 0 1000
    none 0 0 false 0 1 1 1 "FACE12AB34" (by norm_num)
  obtain ⟨h1, _, _, _, _, _, _, _, _, _, _, _, h13, _, _, _, _, _, _, _, _,
    h22⟩ := h
  exact ⟨h1, h13, h22⟩

/-! FraudGenerator.generate_all_fraud_scenarios, fraud-flag backfill
(fraud_scenario_generator.py, lines 412-419).  After the alert dataframe
is assembled, the alerts with a loan reference are selected
(`df[df['loan_id'].notna()]`); every loan whose id is in that set gets
`fraud_flag = True`, and then, alert by alert in dataframe order, the
matching loans get `fraud_type` and `fraud_detection_date` from the
alert.  Only the fields of a `FraudAlert` that flow into the update are
modelled. -/

structure FraudAlert where
  alert_id : String
  loan_id : Option String
  customer_id : String
  alert_type : String
  detection_date : ℤ
deriving DecidableEq, Repr

/-- `loans_df.loc[loans_df['loan_id'].isin(fraud_loan_ids), 'fraud_flag'] =
True`, applied to one loan. -/
def setFraudFlag (ids : List String) (l : LoanRec) : LoanRec :=
  if l.loan_id ∈ ids then { l with fraud_flag := true } else l

/-- The per-alert update of lines 416-419, applied to one loan. -/
def applyAlertToLoan (a : FraudAlert) (l : LoanRec) : LoanRec :=
  if a.loan_id = some l.loan_id then
    { l with fraud_type := some a.alert_type,
             fraud_detection_date := some a.detection_date }
  else l

/-- All per-alert updates, in dataframe order. -/
def applyAlerts (as : List FraudAlert) (l : LoanRec) : LoanRec :=
  as.foldl (fun l a => applyAlertToLoan a l) l

/-- The whole backfill of lines 412-419 on the loan collection. -/
def fraudBackfill (loans : List LoanRec) (alerts : List FraudAlert) :
    List LoanRec :=
  let withLoan := alerts.filter (fun a => a.loan_id.isSome)
  let fraud_loan_ids := withLoan.filterMap (fun a => a.loan_id)
  let flagged := loans.map (setFraudFlag fraud_loan_ids)
  withLoan.foldl (fun ls a => ls.map (applyAlertToLoan a)) flagged

theorem foldl_map_applyAlert (as : List FraudAlert) (ls : List LoanRec) :
    as.foldl (fun ls a => ls.map (applyAlertToLoan a)) ls =
      ls.map (applyAlerts as) := by
  induction as generalizing ls with
  | nil =>
    have hid : applyAlerts ([] : List FraudAlert) = id := rfl
    rw [List.foldl_nil, hid, List.map_id]
  | cons a as ih =>
    simp only [List.foldl_cons, ih, List.map_map]
    rfl

theorem applyAlertToLoan_loan_id (a : FraudAlert) (l : LoanRec) :
    (applyAlertToLoan a l).loan_id = l.loan_id := by
  unfold applyAlertToLoan
  split_ifs <;> rfl

theorem applyAlerts_of_not_referenced (as : List FraudAlert) (l : LoanRec)
    (h : ∀ a ∈ as, a.loan_id ≠ some l.loan_id) : applyAlerts as l = l := by
  induction as with
  | nil => rfl
  | cons a as ih =>
    have ha : applyAlertToLoan a l = l := by
      unfold applyAlertToLoan
      rw [if_neg (h a (List.mem_cons_self a as))]
    unfold applyAlerts
    rw [List.foldl_cons, ha]
    exact ih (fun a' ha' => h a' (List.mem_cons_of_mem a ha'))

theorem applyAlerts_of_referenced (as : List FraudAlert) (l : LoanRec)
    (h : ∃ a ∈ as, a.loan_id = some l.loan_id) :
    ∃ a ∈ as, a.loan_id = some l.loan_id ∧
      applyAlerts as l =
        { l with
            fraud_type := some a.alert_type,
            fraud_detection_date := some a.detection_date } := by
  induction as generalizing l with
  | nil => simp at h
  | cons a as ih =>
    by_cases hrest : ∃ a' ∈ as, a'.loan_id = some l.loan_id
    · have hid : (applyAlertToLoan a l).loan_id = l.loan_id :=
        applyAlertToLoan_loan_id a l
      obtain ⟨a', ha'mem, ha'id, ha'eq⟩ := ih (applyAlertToLoan a l)
        (by rw [hid]; exact hrest)
      refine ⟨a', List.mem_cons_of_mem a ha'mem, by rw [← hid]; exact ha'id, ?_⟩
      unfold applyAlerts at ha'eq ⊢
      rw [List.foldl_cons, ha'eq]
      unfold applyAlertToLoan
      split_ifs <;> rfl
    · push_neg at hrest
      obtain ⟨a0, ha0mem, ha0id⟩ := h
      have ha0 : a0 = a := by
        rcases List.mem_cons.mp ha0mem with h' | h'
        · exact h'
        · exact absurd ha0id (hrest a0 h')
      subst ha0
      have happ : applyAlertToLoan a0 l =
          { l with
              fraud_type := some a0.alert_type,
              fraud_detection_date := some a0.detection_date } := by
        unfold applyAlertToLoan
        rw [if_pos ha0id]
      refine ⟨a0, List.mem_cons_self a0 as, ha0id, ?_⟩
      unfold applyAlerts
      rw [List.foldl_cons, happ]
      have := applyAlerts_of_not_referenced as
        { l with
            fraud_type := some a0.alert_type,
            fraud_detection_date := some a0.detection_date }
        (fun a' ha' => hrest a' ha')
      exact this

theorem referenced_iff_mem_ids (alerts : List FraudAlert) (l : LoanRec) :
    (l.loan_id ∈ (alerts.filter (fun a => a.loan_id.isSome)).filterMap
        (fun a => a.loan_id)) ↔
      ∃ a ∈ alerts, a.loan_id = some l.loan_id := by
  rw [List.mem_filterMap]
  constructor
  · rintro ⟨a, hmem, hid⟩
    exact ⟨a, List.mem_of_mem_filter hmem, hid⟩
  · rintro ⟨a, hmem, hid⟩
    refine ⟨a, List.mem_filter.mpr ⟨hmem, ?_⟩, hid⟩
    rw [hid]
    rfl

theorem filtered_referenced_iff (alerts : List FraudAlert) (l : LoanRec) :
    (∃ a ∈ alerts.filter (fun a => a.loan_id.isSome),
        a.loan_id = some l.loan_id) ↔
      ∃ a ∈ alerts, a.loan_id = some l.loan_id := by
  constructor
  · rintro ⟨a, hmem, hid⟩
    exact ⟨a, List.mem_of_mem_filter hmem, hid⟩
  · rintro ⟨a, hmem, hid⟩
    refine ⟨a, List.mem_filter.mpr ⟨hmem, ?_⟩, hid⟩
    rw [hid]
    rfl

/-- C7: the backfill preserves the length of the loan collection; a loan
referenced by no produced alert is returned unchanged; and a referenced
loan is returned with `fraud_flag := true` and `fraud_type` /
`fraud_detection_date` taken from a referencing alert, all other fields
unchanged (the record-update equality says exactly that only those three
fields change). -/
theorem fraudBackfill_frame (loans : List LoanRec) (alerts : List FraudAlert) :
    (fraudBackfill loans alerts).length = loans.length ∧
      ∀ i : ℕ, ∀ l l' : LoanRec, loans[i]? = some l →
        (fraudBackfill loans alerts)[i]? = some l' →
        ((∀ a ∈ alerts, a.loan_id ≠ some l.loan_id) → l' = l) ∧
          ((∃ a ∈ alerts, a.loan_id = some l.loan_id) →
            ∃ a ∈ alerts, a.loan_id = some l.loan_id ∧
              l' = { l with
                       fraud_flag := true,
                       fraud_type := some a.alert_type,
                       fraud_detection_date := some a.detection_date }) := by
  have hrw : fraudBackfill loans alerts =
      loans.map (fun l => applyAlerts
        (alerts.filter (fun a => a.loan_id.isSome))
        (setFraudFlag ((alerts.filter (fun a => a.loan_id.isSome)).filterMap
          (fun a => a.loan_id)) l)) := by
    unfold fraudBackfill
    rw [foldl_map_applyAlert, List.map_map]
    rfl
  constructor
  · rw [hrw, List.length_map]
  · intro i l l' hi hi'
    rw [hrw, List.getElem?_map, hi, Option.map_some'] at hi'
    have hl' : l' = applyAlerts (alerts.filter (fun a => a.loan_id.isSome))
        (setFraudFlag ((alerts.filter (fun a => a.loan_id.isSome)).filterMap
          (fun a => a.loan_id)) l) := (Option.some_inj.mp hi').symm
    constructor
    · intro hnone
      have hflag : setFraudFlag ((alerts.filter (fun a => a.loan_id.isSome)).filterMap
          (fun a => a.loan_id)) l = l := by
        unfold setFraudFlag
        rw [if_neg]
        intro hmem
        obtain ⟨a, hamem, haid⟩ := (referenced_iff_mem_ids alerts l).mp hmem
        exact hnone a hamem haid
      rw [hl', hflag]
      apply applyAlerts_of_not_referenced
      intro a hamem
      exact hnone a (List.mem_of_mem_filter hamem)
    · intro hsome
      have hflag : setFraudFlag ((alerts.filter (fun a => a.loan_id.isSome)).filterMap
          (fun a => a.loan_id)) l = { l with fraud_flag := true } := by
        unfold setFraudFlag
        rw [if_pos ((referenced_iff_mem_ids alerts l).mpr hsome)]
      obtain ⟨a, hamem, haid, haeq⟩ := applyAlerts_of_referenced
        (alerts.filter (fun a => a.loan_id.isSome))
        { l with fraud_flag := true }
        ((filtered_referenced_iff alerts
          { l with fraud_flag := true }).mpr hsome)
      refine ⟨a, List.mem_of_mem_filter hamem, haid, ?_⟩
      rw [hl', hflag, haeq]

/-- A concrete loan record for the C7 witness (a rejected-style record;
any record does). -/
def demoLoan : LoanRec :=
  { loan_id := "LOAN0000000001"
    customer_id := "CUST00000001"
    product_id := "PL001"
    branch_id := "BR001"
    application_date := 0
    disbursement_date := none
    first_emi_date := none
    loan_amount := 100000
    sanctioned_amount := none
    interest_rate := none
    tenure_months := none
    emi_amount := none
    processing_fee := none
    gst_on_fee := none
    net_disbursed_amount := none
    loan_purpose := "Medical emergency"
    collateral_id := none
    collateral_value := none
    loan_to_value_ratio := none
    co_applicant_present := false
    co_applicant_income := none
    bureau_score_at_origination := 640
    internal_risk_rating := "Sub-Prime"
    probability_of_default := none
    loss_given_default := none
    exposure_at_default := none
    expected_loss := none
    current_balance := 0
    overdue_amount := 0
    days_past_due := 0
    dpd_bucket := "0"
    npa_flag := false
    npa_date := none
    restructuring_flag := false
    written_off_flag := false
    loan_status := "Active"
    collection_tier := none
    assigned_collection_agent := none
    fraud_flag := false
    fraud_type := none
    fraud_detection_date := none }

/-- A second concrete loan, referenced by no alert, for the C7 witness. -/
def demoLoanOther : LoanRec :=
  { demoLoan with loan_id := "LOAN0000000002" }

/-- A concrete fraud alert referencing `demoLoan`, for the C7 witness. -/
def demoAlert : FraudAlert :=
  { alert_id := "FRD0000000001"
    loan_id := some ("LOAN0000000001")
    customer_id := "CUST00000001"
    alert_type := "Income Mismatch"
    detection_date := 700 }

/-- Witness for C7 on concrete data: backfilling `[demoLoan,
demoLoanOther]` with `[demoAlert]` rewrites only the referenced first loan
- to the record-update with the alert's type and date - and returns the
unreferenced second loan unchanged. -/
theorem fraudBackfill_frame_witness :
    (∃ a ∈ [demoAlert], a.loan_id = some demoLoan.loan_id ∧
      ({ demoLoan with
           fraud_flag := true,
           fraud_type := some (("Income Mismatch" : String)),
           fraud_detection_date := some ((700 : ℤ)) } : LoanRec) =
        { demoLoan with
            fraud_flag := true,
            fraud_type := some a.alert_type,
            fraud_detection_date := some a.detection_date }) ∧
      ({ demoLoan with
           fraud_flag := true,
           fraud_type := some (("Income Mismatch" : String)),
           fraud_detection_date := some ((700 : ℤ)) } : LoanRec) =
        { demoLoan with
            fraud_flag := true,
            fraud_type := some demoAlert.alert_type,
            fraud_detection_date := some demoAlert.detection_date } ∧
      demoLoanOther = demoLoanOther := by
  have h := (fraudBackfill_frame [demoLoan, demoLoanOther] [demoAlert]).2
  have h0 := h 0 demoLoan
    ({ demoLoan with
         fraud_flag := true,
         fraud_type := some (("Income Mismatch" : String)),
         fraud_detection_date := some ((700 : ℤ)) }) rfl rfl
  have h1 := h 1 demoLoanOther demoLoanOther rfl rfl
  refine ⟨?_, rfl, ?_⟩
  · obtain ⟨a, hmem, hid, heq⟩ := h0.2 ⟨demoAlert, List.mem_singleton_self _, rfl⟩
    exact ⟨a, hmem, hid, heq⟩
  · apply h1.1
    intro a hmem hid
    rcases List.mem_singleton.mp hmem with rfl
    exact absurd hid (by decide)

end CreditFlow
